import Mathlib

/-!
Shallow embedding of `app.py`, a minimal photo-sharing web application
(FastAPI + fasthtml): user sign-up, an image feed, per-image detail pages,
like/unlike counters, comments, and a (simulated) image upload.

The application state is two in-memory Python dicts (`users`, `images`) plus
the counter `next_image_id`.  Python dicts preserve insertion order and have
unique keys; we embed them as association lists where every operation acts on
the first occurrence of a key (operations never create a duplicate key, so on
states built by the app the two views agree).

Route handlers are embedded as pure functions
`AppState → Except HTTPException (Response × AppState)`; `raise HTTPException`
in the Python source aborts the handler before any mutation, which the
`Except.error` branch models (no state is returned on error).  `runHandler`
models the framework: an exception leaves the store untouched.

Rendered HTML is embedded as a tree of elements (`Node`), mirroring the
fasthtml component calls in the source; `HTMLResponse(str(...))`
serialization is left abstract since no property depends on the flat string.
-/

namespace PinterestApp

/-- First-occurrence lookup in an association list (Python `d[k]` / `k in d`). -/
def dictGet {κ β : Type} [DecidableEq κ] (k : κ) : List (κ × β) → Option β
  | [] => none
  | (k', v) :: rest => if k' = k then some v else dictGet k rest

/-- Python `k in d`. -/
def dictMem {κ β : Type} [DecidableEq κ] (k : κ) (d : List (κ × β)) : Bool :=
  (dictGet k d).isSome

/-- Python `d[k] = v`: replace the first binding of `k` in place (keeping its
position, as CPython dicts do), or append a fresh binding at the end. -/
def dictSet {κ β : Type} [DecidableEq κ] (k : κ) (v : β) : List (κ × β) → List (κ × β)
  | [] => [(k, v)]
  | (k', v') :: rest => if k' = k then (k, v) :: rest else (k', v') :: dictSet k v rest

/-- An entry of the `images` dict (source lines 16-23 and 271-278).  `likes`
is a Python int, embedded as `Int`; nonnegativity is proved, not assumed. -/
structure Image where
  id : Nat
  url : String
  description : String
  likes : Int
  comments : List String
deriving DecidableEq

/-- A value of the `users` dict: `{"email": ..., "password": ...}`. -/
structure UserRecord where
  email : String
  password : String
deriving DecidableEq

/-- The whole mutable state of the application: the two module-level dicts
and the `next_image_id` counter. -/
structure AppState where
  users : List (String × UserRecord)
  images : List (Nat × Image)
  nextImageId : Nat
deriving DecidableEq

/-- An HTML tree as built from fasthtml components: an element with a tag,
attributes and children, or a text node. -/
inductive Node : Type where
  | el (tag : String) (attrs : List (String × String)) (children : List Node)
  | text (s : String)

/-- `raise HTTPException(status_code=..., detail=...)`. -/
structure HTTPException where
  status : Nat
  detail : String
deriving DecidableEq

/-- The response values the handlers produce: `HTMLResponse` around a
rendered tree, `HTMLResponse` around a plain string, or `RedirectResponse`. -/
inductive Response : Type where
  | html (status : Nat) (body : Node)
  | htmlText (status : Nat) (body : String)
  | redirect (url : String) (status : Nat)

/-- The framework wrapper: run a handler; an `HTTPException` becomes an error
response and the state is left exactly as it was. -/
def runHandler (h : AppState → Except HTTPException (Response × AppState))
    (s : AppState) : Except HTTPException Response × AppState :=
  match h s with
  | .ok (r, s') => (.ok r, s')
  | .error e => (.error e, s)

/-- The stylesheet text inside `render_page` (source lines 38-59). -/
def pageCss : String :=
  "body \x7b font-family: sans-serif; margin: 0; padding: 20px; background-color: #f4f4f4; \x7d " ++
  ".container \x7b max-width: 900px; margin: auto; background: white; padding: 20px; box-shadow: 0 0 10px rgba(0,0,0,0.1); \x7d " ++
  ".header \x7b display: flex; justify-content: space-between; align-items: center; padding-bottom: 15px; border-bottom: 1px solid #ccc; margin-bottom: 20px; \x7d " ++
  ".header input[type=\x27search\x27] \x7b flex-grow: 1; margin: 0 15px; padding: 8px; \x7d " ++
  ".header button, .header a \x7b padding: 8px 12px; text-decoration: none; background-color: #eee; border: 1px solid #ccc; border-radius: 4px; cursor: pointer; \x7d " ++
  ".header a \x7b display: inline-block; \x7d " ++
  ".image-grid \x7b display: grid; grid-template-columns: repeat(auto-fill, minmax(200px, 1fr)); gap: 15px; margin-bottom: 20px; \x7d " ++
  ".image-grid-item img \x7b max-width: 100%; height: auto; display: block; border: 1px solid #ddd; \x7d " ++
  ".image-detail \x7b display: flex; gap: 20px; \x7d " ++
  ".image-detail img \x7b max-width: 60%; height: auto; object-fit: contain; border: 1px solid #ddd; \x7d " ++
  ".image-info \x7b flex-grow: 1; \x7d " ++
  ".actions button \x7b margin-right: 10px; padding: 5px 10px; \x7d " ++
  ".comments-section \x7b margin-top: 20px; \x7d " ++
  ".comments-list \x7b list-style: none; padding: 0; margin-bottom: 15px; \x7d " ++
  ".comments-list li \x7b padding: 8px; border-bottom: 1px solid #eee; \x7d " ++
  ".comment-form input \x7b width: calc(100% - 80px); padding: 8px; \x7d " ++
  ".comment-form button \x7b padding: 8px 15px; \x7d " ++
  ".modal \x7b position: fixed; top: 0; left: 0; width: 100%; height: 100%; background-color: rgba(0,0,0,0.5); display: flex; justify-content: center; align-items: center; z-index: 1000;\x7d " ++
  ".modal-content \x7b background: white; padding: 30px; border-radius: 5px; min-width: 300px; max-width: 500px; \x7d " ++
  ".hidden \x7b display: none; \x7d"

/-- `render_page(*content, title=...)` (source lines 28-66): wraps content in
the shared HTML shell (head metadata, stylesheet, HTMX script, container div,
modal target div).  Every call site in the source passes `title` explicitly. -/
def render_page (content : List Node) (title : String) : Response :=
  .html 200 (.el "html" []
    [ .el "head" []
        [ .el "title" [] [.text title],
          .el "meta" [("charset", "utf-8")] [],
          .el "meta" [("name", "viewport"), ("content", "width=device-width, initial-scale=1")] [],
          .el "script" [("src", "https://unpkg.com/htmx.org@1.9.12")] [],
          .el "style" [] [.text pageCss] ],
      .el "body" []
        [ .el "div" [("class", "container")] content,
          .el "div" [("id", "modal-container")] [] ] ])

/-- The sign-up form content built in `signup_page` (source lines 73-80). -/
def signupFormContent : Node :=
  .el "form" [("action", "/signup"), ("method", "post")]
    [ .el "h2" [] [.text "Sign Up"],
      .el "p" []
        [ .el "label" [("for", "username")] [.text "Username:"],
          .el "input" [("type", "text"), ("id", "username"), ("name", "username"), ("required", "true")] [] ],
      .el "p" []
        [ .el "label" [("for", "email")] [.text "Email:"],
          .el "input" [("type", "email"), ("id", "email"), ("name", "email"), ("required", "true")] [] ],
      .el "p" []
        [ .el "label" [("for", "password")] [.text "Password:"],
          .el "input" [("type", "password"), ("id", "password"), ("name", "password"), ("required", "true")] [] ],
      .el "button" [("type", "submit")] [.text "Sign Up"] ]

/-- `GET /signup` (source lines 70-81): renders the sign-up form page. -/
def signup_page (s : AppState) : Except HTTPException (Response × AppState) :=
  .ok (render_page [signupFormContent] "Sign Up", s)

/-- `POST /signup` → `handle_signup` (source lines 83-92): reject a taken
username with a 400, otherwise store the user and redirect with 303. -/
def handle_signup (username email password : String) (s : AppState) :
    Except HTTPException (Response × AppState) :=
  if dictMem username s.users then
    .error ⟨400, "Username already exists"⟩
  else
    .ok (.redirect "/" 303,
      { s with users := dictSet username ⟨email, password⟩ s.users })

/-- Descending insertion for `sorted(keys, reverse=True)`. -/
def insertDesc (x : Nat) : List Nat → List Nat
  | [] => [x]
  | y :: ys => if y ≤ x then x :: y :: ys else y :: insertDesc x ys

/-- `sorted(images.keys(), reverse=True)` (source line 107): a descending
sort of the key list. -/
def sortDesc (l : List Nat) : List Nat :=
  l.foldr insertDesc []

/-- The header bar built in `feed_page` (source lines 98-103). -/
def feedHeader : Node :=
  .el "div" [("class", "header")]
    [ .el "button" [("hx-get", "/post-form"), ("hx-target", "#modal-container"), ("hx-swap", "innerHTML")] [.text "Post"],
      .el "input" [("type", "search"), ("placeholder", "Search"), ("name", "q")] [],
      .el "a" [("href", "#")] [.text "User Profile"] ]

/-- The dummy image used only to totalize `images[img_id]` below; the feed
loop indexes with keys of the dict, so the lookup always succeeds and the
default is never produced on the Python side. -/
def defaultImage : Image :=
  { id := 0, url := "", description := "", likes := 0, comments := [] }

/-- The image ids the feed iterates over, newest first (source line 107). -/
def feedImageIds (s : AppState) : List Nat :=
  sortDesc (s.images.map Prod.fst)

/-- One grid item of the feed (source lines 110-116): a link wrapping the
thumbnail, built from `images[img_id]`. -/
def feedThumb (s : AppState) (imgId : Nat) : Node :=
  let imgData := (dictGet imgId s.images).getD defaultImage
  .el "a" [("href", "/image/" ++ toString imgId), ("class", "image-grid-item")]
    [ .el "img" [("src", imgData.url), ("alt", imgData.description)] [] ]

/-- `GET /` → `feed_page` (source lines 95-120): header plus one thumbnail
per image, ordered by id descending; reads the store, never writes it. -/
def feed_page (s : AppState) : Except HTTPException (Response × AppState) :=
  .ok (render_page
    [ feedHeader,
      .el "div" [("class", "image-grid")] ((feedImageIds s).map (feedThumb s)) ]
    "Feed", s)

/-- `render_like_section` (defined identically at source lines 132-138,
183-189 and 202-208): the likes widget fragment, with a stable element id
derived from the image id. -/
def render_like_section (imgId : Nat) (currentLikes : Int) : Node :=
  .el "span" [("id", "likes-" ++ toString imgId)]
    [ .text (toString currentLikes ++ " Likes"),
      .el "button" [("hx-post", "/like/" ++ toString imgId), ("hx-target", "#likes-" ++ toString imgId), ("hx-swap", "outerHTML")] [.text "Like"],
      .el "button" [("hx-post", "/unlike/" ++ toString imgId), ("hx-target", "#likes-" ++ toString imgId), ("hx-swap", "outerHTML")] [.text "Unlike"] ]

/-- `render_comments_list` (defined identically at source lines 140-142 and
221-223): the ordered comment list, or a single placeholder item when the
list is empty (Python truthiness of the list). -/
def render_comments_list (imgId : Nat) (comments : List String) : Node :=
  let listItems :=
    if comments.isEmpty then [Node.el "li" [] [.text "No comments yet."]]
    else comments.map (fun c => Node.el "li" [] [.text c])
  .el "ul" [("id", "comments-list-" ++ toString imgId), ("class", "comments-list")] listItems

/-- The comment submission form of the detail page (source lines 157-164). -/
def commentFormNode (imageId : Nat) : Node :=
  .el "form"
    [ ("hx-post", "/comment/" ++ toString imageId),
      ("hx-target", "#comments-list-" ++ toString imageId),
      ("hx-swap", "outerHTML"),
      ("hx-on", "htmx:afterRequest: this.reset()") ]
    [ .el "input" [("type", "text"), ("name", "comment"), ("placeholder", "Add a comment..."), ("required", "true")] [],
      .el "button" [("type", "submit")] [.text "Post"] ]

/-- The composite detail fragment of `image_detail_page` (source lines
145-170): image, description, likes widget, comment list, comment form. -/
def render_detail (imageId : Nat) (imgData : Image) : Node :=
  .el "div" [("class", "image-detail")]
    [ .el "div" [("class", "image-main")]
        [ .el "img" [("src", imgData.url), ("alt", imgData.description)] [] ],
      .el "div" [("class", "image-info")]
        [ .el "h2" [] [.text "Image Details"],
          .el "p" [] [.text imgData.description],
          .el "div" [("class", "actions")] [render_like_section imageId imgData.likes],
          .el "div" [("class", "comments-section")]
            [ .el "h3" [] [.text "Comments"],
              .el "div" [] [render_comments_list imageId imgData.comments],
              commentFormNode imageId ] ] ]

/-- `GET /image/{image_id}` → `image_detail_page` (source lines 123-171):
404 when the id is absent, otherwise the rendered detail page. -/
def image_detail_page (imageId : Nat) (s : AppState) :
    Except HTTPException (Response × AppState) :=
  match dictGet imageId s.images with
  | none => .error ⟨404, "Image not found"⟩
  | some imgData =>
      .ok (render_page [render_detail imageId imgData] ("Image " ++ toString imageId), s)

/-- `POST /like/{image_id}` → `like_image` (source lines 175-190): 404 when
absent; otherwise `images[image_id]['likes'] += 1` and the widget is
re-rendered from the updated count. -/
def like_image (imageId : Nat) (s : AppState) :
    Except HTTPException (Response × AppState) :=
  match dictGet imageId s.images with
  | none => .error ⟨404, "Image not found"⟩
  | some img =>
      let img' := { img with likes := img.likes + 1 }
      .ok (.html 200 (render_like_section imageId img'.likes),
        { s with images := dictSet imageId img' s.images })

/-- `POST /unlike/{image_id}` → `unlike_image` (source lines 193-209): 404
when absent; the counter is decremented only when `likes > 0`, and the
widget is re-rendered from the resulting count. -/
def unlike_image (imageId : Nat) (s : AppState) :
    Except HTTPException (Response × AppState) :=
  match dictGet imageId s.images with
  | none => .error ⟨404, "Image not found"⟩
  | some img =>
      let img' := if 0 < img.likes then { img with likes := img.likes - 1 } else img
      .ok (.html 200 (render_like_section imageId img'.likes),
        { s with images := dictSet imageId img' s.images })

/-- `POST /comment/{image_id}` → `add_comment` (source lines 212-225): 404
when absent; `if comment:` appends only when the string is non-empty
(Python truthiness of `str`), then the list fragment is re-rendered. -/
def add_comment (imageId : Nat) (comment : String) (s : AppState) :
    Except HTTPException (Response × AppState) :=
  match dictGet imageId s.images with
  | none => .error ⟨404, "Image not found"⟩
  | some img =>
      let img' :=
        if comment ≠ "" then { img with comments := img.comments ++ [comment] }
        else img
      .ok (.html 200 (render_comments_list imageId img'.comments),
        { s with images := dictSet imageId img' s.images })

/-- The upload modal fragment of `get_post_form` (source lines 231-248). -/
def uploadFormContent : Node :=
  .el "div" [("class", "modal")]
    [ .el "div" [("class", "modal-content")]
        [ .el "h2" [] [.text "Create New Post"],
          .el "form"
            [ ("action", "/upload"), ("method", "post"), ("enctype", "multipart/form-data"),
              ("hx-on", "htmx:afterOnLoad: if(event.detail.xhr.status === 200) window.location.href=\x27/\x27") ]
            [ .el "p" []
                [ .el "label" [("for", "image_file")] [.text "Choose Image:"],
                  .el "input" [("type", "file"), ("id", "image_file"), ("name", "image_file"), ("accept", "image/*"), ("required", "true")] [] ],
              .el "p" []
                [ .el "label" [("for", "description")] [.text "Description:"],
                  .el "textarea" [("id", "description"), ("name", "description"), ("rows", "4"), ("required", "true")] [] ],
              .el "button" [("type", "submit")] [.text "Post Image"],
              .el "button" [("type", "button"), ("hx-get", "/close-modal"), ("hx-target", "#modal-container"), ("hx-swap", "innerHTML")] [.text "Cancel"] ] ] ]

/-- `GET /post-form` → `get_post_form` (source lines 228-249). -/
def get_post_form (s : AppState) : Except HTTPException (Response × AppState) :=
  .ok (.html 200 uploadFormContent, s)

/-- `GET /close-modal` → `close_modal` (source lines 252-255). -/
def close_modal (s : AppState) : Except HTTPException (Response × AppState) :=
  .ok (.htmlText 200 "", s)

/-- `POST /upload` → `handle_upload` (source lines 258-285): assign
`next_image_id`, store a fresh image record with a placeholder URL, zero
likes and no comments, bump the counter, answer 200.  The uploaded file
(name and bytes) is received but its content is never stored. -/
def handle_upload (description : String) (imageFileName : String)
    (imageFileContent : List UInt8) (s : AppState) :
    Except HTTPException (Response × AppState) :=
  let new_id := s.nextImageId
  let newImage : Image :=
    { id := new_id,
      url := "https://via.placeholder.com/300x200.png?text=New+Post+" ++ toString new_id,
      description := description,
      likes := 0,
      comments := [] }
  .ok (.htmlText 200 "Upload successful",
    { s with images := dictSet new_id newImage s.images, nextImageId := new_id + 1 })

/-- The seeded `images` dict (source lines 16-23). -/
def initImages : List (Nat × Image) :=
  [ (1, { id := 1, url := "https://via.placeholder.com/300x200.png?text=Image+1",
          description := "A lovely placeholder", likes := 10,
          comments := ["Great shot!", "Beautiful."] }),
    (2, { id := 2, url := "https://via.placeholder.com/300x200.png?text=Image+2",
          description := "Another placeholder view", likes := 5,
          comments := ["Nice."] }),
    (3, { id := 3, url := "https://via.placeholder.com/300x200.png?text=Image+3",
          description := "Placeholder number three", likes := 22,
          comments := [] }),
    (4, { id := 4, url := "https://via.placeholder.com/300x200.png?text=Image+4",
          description := "Yet another one", likes := 1,
          comments := ["Cool"] }),
    (5, { id := 5, url := "https://via.placeholder.com/300x200.png?text=Image+5",
          description := "Placeholder five", likes := 8,
          comments := [] }),
    (6, { id := 6, url := "https://via.placeholder.com/300x200.png?text=Image+6",
          description := "Number six", likes := 15,
          comments := ["Wow!", "Amazing"] }) ]

/-- The module-level startup state: empty `users`, the six seeded images,
`next_image_id = 7` (source lines 15-24). -/
def initState : AppState :=
  { users := [], images := initImages, nextImageId := 7 }

/-- A like or unlike action aimed at an image id. -/
inductive LikeOp : Type where
  | like (id : Nat)
  | unlike (id : Nat)

/-- The state left behind by one like/unlike request (response discarded). -/
def applyLikeOp (op : LikeOp) (s : AppState) : AppState :=
  match op with
  | .like id => (runHandler (like_image id) s).2
  | .unlike id => (runHandler (unlike_image id) s).2

/-- The state after a whole sequence of like/unlike requests. -/
def applyLikeOps (ops : List LikeOp) (s : AppState) : AppState :=
  ops.foldl (fun st op => applyLikeOp op st) s

/-- The state after a sequence of `POST /comment/{imageId}` submissions
(responses discarded). -/
def postComments (imageId : Nat) (cs : List String) (s : AppState) : AppState :=
  cs.foldl (fun st c => (runHandler (add_comment imageId c) st).2) s

/-- All stored like counters are nonnegative. -/
def likesNonneg (s : AppState) : Prop :=
  ∀ p ∈ s.images, 0 ≤ p.2.likes

/-- Every stored image id is below `next_image_id` — the reachability
invariant behind fresh id assignment. -/
def imageIdsBound (s : AppState) : Prop :=
  ∀ p ∈ s.images, p.1 < s.nextImageId

/-! ### Association-list lemmas -/

theorem dictGet_dictSet_self {κ β : Type} [DecidableEq κ] (k : κ) (v : β)
    (l : List (κ × β)) : dictGet k (dictSet k v l) = some v := by
  induction l with
  | nil => simp [dictGet, dictSet]
  | cons p rest ih =>
      obtain ⟨k', v'⟩ := p
      by_cases hk : k' = k
      · simp [dictGet, dictSet, hk]
      · simp [dictGet, dictSet, hk, ih]

theorem dictGet_dictSet_ne {κ β : Type} [DecidableEq κ] {k k' : κ} (v : β)
    (l : List (κ × β)) (hne : k' ≠ k) :
    dictGet k' (dictSet k v l) = dictGet k' l := by
  induction l with
  | nil => simp [dictGet, dictSet, hne, Ne.symm hne]
  | cons p rest ih =>
      obtain ⟨k₀, v₀⟩ := p
      by_cases hk : k₀ = k
      · subst hk
        simp [dictGet, dictSet, hne, Ne.symm hne]
      · simp [dictGet, dictSet, hk, ih]

theorem dictSet_self {κ β : Type} [DecidableEq κ] {k : κ} {v : β}
    {l : List (κ × β)} (h : dictGet k l = some v) : dictSet k v l = l := by
  induction l with
  | nil => simp [dictGet] at h
  | cons p rest ih =>
      obtain ⟨k₀, v₀⟩ := p
      by_cases hk : k₀ = k
      · subst hk
        simp [dictGet] at h
        simp [dictSet, h]
      · simp [dictGet, hk] at h
        simp [dictSet, hk, ih h]

theorem dictSet_dictSet {κ β : Type} [DecidableEq κ] (k : κ) (v v' : β)
    (l : List (κ × β)) : dictSet k v (dictSet k v' l) = dictSet k v l := by
  induction l with
  | nil => simp [dictSet]
  | cons p rest ih =>
      obtain ⟨k₀, v₀⟩ := p
      by_cases hk : k₀ = k
      · simp [dictSet, hk]
      · simp [dictSet, hk, ih]

theorem mem_dictSet {κ β : Type} [DecidableEq κ] {k : κ} {v : β}
    {l : List (κ × β)} {p : κ × β} (h : p ∈ dictSet k v l) :
    p = (k, v) ∨ p ∈ l := by
  induction l with
  | nil => simpa [dictSet] using h
  | cons q rest ih =>
      obtain ⟨k₀, v₀⟩ := q
      by_cases hk : k₀ = k
      · simp [dictSet, hk] at h
        rcases h with h | h
        · exact Or.inl h
        · exact Or.inr (List.mem_cons_of_mem _ h)
      · simp [dictSet, hk] at h
        rcases h with h | h
        · exact Or.inr (by simp [h])
        · rcases ih h with h' | h'
          · exact Or.inl h'
          · exact Or.inr (List.mem_cons_of_mem _ h')

theorem dictGet_mem {κ β : Type} [DecidableEq κ] {k : κ} {v : β}
    {l : List (κ × β)} (h : dictGet k l = some v) : (k, v) ∈ l := by
  induction l with
  | nil => simp [dictGet] at h
  | cons p rest ih =>
      obtain ⟨k₀, v₀⟩ := p
      by_cases hk : k₀ = k
      · subst hk
        simp [dictGet] at h
        simp [h]
      · simp [dictGet, hk] at h
        exact List.mem_cons_of_mem _ (ih h)

theorem dictGet_eq_none_of_keys {κ β : Type} [DecidableEq κ] {k : κ}
    {l : List (κ × β)} (h : ∀ p ∈ l, p.1 ≠ k) : dictGet k l = none := by
  induction l with
  | nil => simp [dictGet]
  | cons p rest ih =>
      obtain ⟨k₀, v₀⟩ := p
      have hk : k₀ ≠ k := h (k₀, v₀) (List.mem_cons_self _ _)
      exact (by simp [dictGet, hk, ih (fun q hq => h q (List.mem_cons_of_mem _ hq))])

theorem keys_dictSet_of_none {κ β : Type} [DecidableEq κ] {k : κ} (v : β)
    {l : List (κ × β)} (h : dictGet k l = none) :
    (dictSet k v l).map Prod.fst = l.map Prod.fst ++ [k] := by
  induction l with
  | nil => simp [dictSet]
  | cons p rest ih =>
      obtain ⟨k₀, v₀⟩ := p
      by_cases hk : k₀ = k
      · simp [dictGet, hk] at h
      · simp [dictGet, hk] at h
        simp [dictSet, hk, ih h]

/-! ### Like-counter invariants -/

theorem likesNonneg_applyLikeOp (op : LikeOp) {s : AppState}
    (h : likesNonneg s) : likesNonneg (applyLikeOp op s) := by
  cases op with
  | like id =>
      cases hd : dictGet id s.images with
      | none => simpa [applyLikeOp, runHandler, like_image, hd] using h
      | some img =>
          intro p hp
          simp only [applyLikeOp, runHandler, like_image, hd] at hp
          rcases mem_dictSet hp with hp' | hp'
          · have himg : (0 : Int) ≤ img.likes := h (id, img) (dictGet_mem hd)
            subst hp'
            simpa using by omega
          · exact h p hp'
  | unlike id =>
      cases hd : dictGet id s.images with
      | none => simpa [applyLikeOp, runHandler, unlike_image, hd] using h
      | some img =>
          intro p hp
          simp only [applyLikeOp, runHandler, unlike_image, hd] at hp
          rcases mem_dictSet hp with hp' | hp'
          · have himg : (0 : Int) ≤ img.likes := h (id, img) (dictGet_mem hd)
            subst hp'
            by_cases hpos : (0 : Int) < img.likes
            · simpa [hpos] using by omega
            · simpa [hpos] using himg
          · exact h p hp'

theorem likesNonneg_applyLikeOps (ops : List LikeOp) {s : AppState}
    (h : likesNonneg s) : likesNonneg (applyLikeOps ops s) := by
  induction ops generalizing s with
  | nil => simpa [applyLikeOps] using h
  | cons op ops ih =>
      have : applyLikeOps (op :: ops) s = applyLikeOps ops (applyLikeOp op s) := by
        simp [applyLikeOps]
      rw [this]
      exact ih (likesNonneg_applyLikeOp op h)

/-- C1: for every image id present in the store, unlike never takes the
likes counter below zero: on a zero-like image it is a complete no-op (the
state is returned unchanged and the fragment shows 0, not an error), after
an unlike the target image still has a nonnegative counter, and any
sequence of like/unlike requests preserves nonnegativity of every image's
likes field. -/
theorem C1_unlike_never_below_zero :
    (∀ (s : AppState) (imageId : Nat) (img : Image),
        dictGet imageId s.images = some img → img.likes = 0 →
        unlike_image imageId s = .ok (.html 200 (render_like_section imageId 0), s)) ∧
    (∀ (s : AppState) (imageId : Nat) (img : Image),
        dictGet imageId s.images = some img → 0 ≤ img.likes →
        ∃ img', dictGet imageId ((runHandler (unlike_image imageId) s).2).images = some img' ∧
          0 ≤ img'.likes) ∧
    (∀ (s : AppState), likesNonneg s →
        ∀ ops : List LikeOp, likesNonneg (applyLikeOps ops s)) ∧
    likesNonneg initState := by
  refine ⟨?_, ?_, ?_, by simp only [likesNonneg, initState, initImages]; decide⟩
  · intro s imageId img h h0
    have hnot : ¬ (0 : Int) < img.likes := by omega
    simp [unlike_image, h, hnot, h0, dictSet_self h]
  · intro s imageId img h h0
    by_cases hpos : (0 : Int) < img.likes
    · refine ⟨{ img with likes := img.likes - 1 }, ?_, by simpa using by omega⟩
      simp [runHandler, unlike_image, h, hpos, dictGet_dictSet_self]
    · refine ⟨img, ?_, h0⟩
      simp [runHandler, unlike_image, h, hpos, dictGet_dictSet_self]
  · intro s h ops
    exact likesNonneg_applyLikeOps ops h

/-- A minimal store holding one image with zero likes, to exercise the
unlike-at-zero branch. -/
def zeroLikesState : AppState :=
  { users := [],
    images := [(1, { id := 1, url := "u", description := "d", likes := 0, comments := [] })],
    nextImageId := 2 }

/-- Witness for C1 on concrete stores. -/
theorem C1_witness :
    unlike_image 1 zeroLikesState
      = .ok (.html 200 (render_like_section 1 0), zeroLikesState) ∧
    likesNonneg (applyLikeOps [LikeOp.like 3, LikeOp.unlike 3, LikeOp.unlike 3] initState) :=
  ⟨C1_unlike_never_below_zero.1 zeroLikesState 1
      { id := 1, url := "u", description := "d", likes := 0, comments := [] }
      (by decide) (by decide),
    C1_unlike_never_below_zero.2.2.1 initState
      (by simp only [likesNonneg, initState, initImages]; decide)
      [LikeOp.like 3, LikeOp.unlike 3, LikeOp.unlike 3]⟩

/-- C3: on any image present in the store (with the reachable nonnegative
counter), a like followed by an unlike restores the image record — in
particular its likes counter — exactly; indeed the whole state is restored. -/
theorem C3_like_then_unlike_roundtrip (s : AppState) (imageId : Nat) (img : Image)
    (h : dictGet imageId s.images = some img) (h0 : 0 ≤ img.likes) :
    dictGet imageId
        (applyLikeOps [LikeOp.like imageId, LikeOp.unlike imageId] s).images
      = some img ∧
    applyLikeOps [LikeOp.like imageId, LikeOp.unlike imageId] s = s := by
  have hlike : applyLikeOp (LikeOp.like imageId) s =
      { s with images := dictSet imageId { img with likes := img.likes + 1 } s.images } := by
    simp [applyLikeOp, runHandler, like_image, h]
  have hget : dictGet imageId (dictSet imageId { img with likes := img.likes + 1 } s.images)
      = some { img with likes := img.likes + 1 } := dictGet_dictSet_self _ _ _
  have hcoll : ({ img with likes := img.likes + 1 - 1 } : Image) = img := by
    have hl : img.likes + 1 - 1 = img.likes := by omega
    rw [hl]
  have hunlike : applyLikeOp (LikeOp.unlike imageId)
      { s with images := dictSet imageId { img with likes := img.likes + 1 } s.images } =
      { s with images := dictSet imageId img s.images } := by
    have hpos : (0 : Int) < img.likes + 1 := by omega
    simp [applyLikeOp, runHandler, unlike_image, hget, hpos, hcoll, dictSet_dictSet]
  have key : applyLikeOps [LikeOp.like imageId, LikeOp.unlike imageId] s = s := by
    have hsteps : applyLikeOps [LikeOp.like imageId, LikeOp.unlike imageId] s
        = applyLikeOp (LikeOp.unlike imageId) (applyLikeOp (LikeOp.like imageId) s) := by
      simp [applyLikeOps]
    rw [hsteps, hlike, hunlike, dictSet_self h]
  exact ⟨by rw [key]; exact h, key⟩

/-- Witness for C3 on the seeded store, image 3 (22 likes). -/
theorem C3_witness :
    dictGet 3 (applyLikeOps [LikeOp.like 3, LikeOp.unlike 3] initState).images
      = some { id := 3, url := "https://via.placeholder.com/300x200.png?text=Image+3",
               description := "Placeholder number three", likes := 22, comments := [] } ∧
    applyLikeOps [LikeOp.like 3, LikeOp.unlike 3] initState = initState :=
  C3_like_then_unlike_roundtrip initState 3
    { id := 3, url := "https://via.placeholder.com/300x200.png?text=Image+3",
      description := "Placeholder number three", likes := 22, comments := [] }
    (by decide) (by decide)

/-! ### Comments -/

/-- The spec's phrase "empty after trimming whitespace": a Python string
satisfies `s.strip() == ""` exactly when every character is whitespace.
This formalizes the hypothesis class of the claim; the code itself tests
only `if comment:`, i.e. `comment ≠ ""`. -/
def trimmedEmpty (s : String) : Bool :=
  s.toList.all Char.isWhitespace

/-- C2 is refuted by the one-space comment: it is empty after trimming,
yet `POST /comment/1` on the seeded store appends it, changing the comment
list (the code only skips the exactly-empty string). -/
theorem C2_counterexample :
    trimmedEmpty " " = true ∧
    (dictGet 1 initState.images).map Image.comments
      = some ["Great shot!", "Beautiful."] ∧
    (dictGet 1 ((runHandler (add_comment 1 " ") initState).2).images).map Image.comments
      = some ["Great shot!", "Beautiful.", " "] ∧
    (runHandler (add_comment 1 " ") initState).2 ≠ initState := by
  refine ⟨by decide, by decide, by decide, by decide⟩

/-- C2 (amended): the comment-submit no-op case is exactly the empty
string: posting `""` to a present image leaves its comment list (indeed
the whole state) unchanged and re-renders the existing list, while any
non-empty string — whitespace-only included — is appended. -/
theorem C2_empty_comment_noop (s : AppState) (imageId : Nat) (img : Image)
    (c : String) (h : dictGet imageId s.images = some img) :
    (c = "" →
      runHandler (add_comment imageId c) s
        = (.ok (.html 200 (render_comments_list imageId img.comments)), s)) ∧
    (c ≠ "" →
      dictGet imageId ((runHandler (add_comment imageId c) s).2).images
        = some { img with comments := img.comments ++ [c] }) := by
  constructor
  · intro hc
    subst hc
    simp [runHandler, add_comment, h, dictSet_self h]
  · intro hc
    simp [runHandler, add_comment, h, hc, dictGet_dictSet_self]

/-- Witness for C2's amended statement: empty comment is a no-op on the
seeded store, a one-space comment is appended. -/
theorem C2_witness :
    runHandler (add_comment 1 "") initState
      = (.ok (.html 200 (render_comments_list 1 ["Great shot!", "Beautiful."])), initState) ∧
    dictGet 1 ((runHandler (add_comment 1 " ") initState).2).images
      = some { id := 1, url := "https://via.placeholder.com/300x200.png?text=Image+1",
               description := "A lovely placeholder", likes := 10,
               comments := ["Great shot!", "Beautiful.", " "] } :=
  ⟨(C2_empty_comment_noop initState 1
      { id := 1, url := "https://via.placeholder.com/300x200.png?text=Image+1",
        description := "A lovely placeholder", likes := 10,
        comments := ["Great shot!", "Beautiful."] } "" (by decide)).1 rfl,
    (C2_empty_comment_noop initState 1
      { id := 1, url := "https://via.placeholder.com/300x200.png?text=Image+1",
        description := "A lovely placeholder", likes := 10,
        comments := ["Great shot!", "Beautiful."] } " " (by decide)).2 (by decide)⟩

theorem postComments_get (imageId : Nat) (cs : List String) :
    ∀ (s : AppState) (img : Image), dictGet imageId s.images = some img →
      dictGet imageId (postComments imageId cs s).images
        = some { img with comments := img.comments ++ cs.filter (fun c => c != "") } := by
  induction cs with
  | nil =>
      intro s img h
      simpa [postComments] using h
  | cons c rest ih =>
      intro s img h
      have hstep : postComments imageId (c :: rest) s
          = postComments imageId rest ((runHandler (add_comment imageId c) s).2) := by
        simp [postComments]
      by_cases hc : c = ""
      · have h1 : dictGet imageId ((runHandler (add_comment imageId c) s).2).images
            = some img := by
          simp [runHandler, add_comment, h, hc, dictSet_self h]
        rw [hstep, ih _ _ h1]
        simp [hc]
      · have h1 : dictGet imageId ((runHandler (add_comment imageId c) s).2).images
            = some { img with comments := img.comments ++ [c] } := by
          simp [runHandler, add_comment, h, hc, dictGet_dictSet_self]
        rw [hstep, ih _ _ h1]
        simp [hc]

/-- C4: posting any finite sequence of comments to a present image yields
exactly the old list followed by the non-empty submissions in posting
order, so the list is append-only and its length grows by exactly the
number of non-empty submissions. -/
theorem C4_comments_appended_in_order (s : AppState) (imageId : Nat) (img : Image)
    (cs : List String) (h : dictGet imageId s.images = some img) :
    dictGet imageId (postComments imageId cs s).images
      = some { img with comments := img.comments ++ cs.filter (fun c => c != "") } ∧
    (dictGet imageId (postComments imageId cs s).images).map
        (fun i => i.comments.length)
      = some (img.comments.length + (cs.filter (fun c => c != "")).length) := by
  have hspec := postComments_get imageId cs s img h
  exact ⟨hspec, by rw [hspec]; simp⟩

/-- Witness for C4: four submissions, one of them empty, on seeded image 3. -/
theorem C4_witness :
    dictGet 3 (postComments 3 ["nice", "", " ", "ok"] initState).images
      = some { id := 3, url := "https://via.placeholder.com/300x200.png?text=Image+3",
               description := "Placeholder number three", likes := 22,
               comments := ["nice", " ", "ok"] } ∧
    (dictGet 3 (postComments 3 ["nice", "", " ", "ok"] initState).images).map
        (fun i => i.comments.length)
      = some 3 :=
  C4_comments_appended_in_order initState 3
    { id := 3, url := "https://via.placeholder.com/300x200.png?text=Image+3",
      description := "Placeholder number three", likes := 22, comments := [] }
    ["nice", "", " ", "ok"] (by decide)

/-! ### Sign-up and not-found error handling -/

/-- C5: signing up a username that is already present fails with the 400
duplicate-user error and mutates nothing (the stored record of the first
user and every other entry survive untouched), while a fresh username is
stored, answered with a 303 redirect to `/`, and is the only entry added. -/
theorem C5_duplicate_signup_rejected :
    (∀ (s : AppState) (u e p : String) (r : UserRecord),
        dictGet u s.users = some r →
        runHandler (handle_signup u e p) s
          = (.error ⟨400, "Username already exists"⟩, s)) ∧
    (∀ (s : AppState) (u e p : String),
        dictGet u s.users = none →
        runHandler (handle_signup u e p) s
          = (.ok (.redirect "/" 303), { s with users := dictSet u ⟨e, p⟩ s.users }) ∧
        dictGet u (dictSet u (⟨e, p⟩ : UserRecord) s.users) = some ⟨e, p⟩ ∧
        (∀ u' : String, u' ≠ u →
          dictGet u' (dictSet u (⟨e, p⟩ : UserRecord) s.users) = dictGet u' s.users) ∧
        (dictSet u (⟨e, p⟩ : UserRecord) s.users).map Prod.fst
          = s.users.map Prod.fst ++ [u]) := by
  constructor
  · intro s u e p r h
    simp [runHandler, handle_signup, dictMem, h]
  · intro s u e p h
    refine ⟨by simp [runHandler, handle_signup, dictMem, h],
      dictGet_dictSet_self _ _ _,
      fun u' hu' => dictGet_dictSet_ne _ _ hu',
      keys_dictSet_of_none _ h⟩

/-- Witness for C5: a duplicate "alice" sign-up is rejected without
touching her record; a fresh "bob" sign-up is stored and redirected. -/
theorem C5_witness :
    runHandler (handle_signup "alice" "alice2@example.com" "pw2")
        { users := [("alice", { email := "alice@example.com", password := "pw1" })],
          images := initImages, nextImageId := 7 }
      = (.error ⟨400, "Username already exists"⟩,
          { users := [("alice", { email := "alice@example.com", password := "pw1" })],
            images := initImages, nextImageId := 7 }) ∧
    runHandler (handle_signup "bob" "bob@example.com" "pw") initState
      = (.ok (.redirect "/" 303),
          { initState with
              users := [("bob", { email := "bob@example.com", password := "pw" })] }) :=
  ⟨C5_duplicate_signup_rejected.1
      { users := [("alice", { email := "alice@example.com", password := "pw1" })],
        images := initImages, nextImageId := 7 }
      "alice" "alice2@example.com" "pw2"
      { email := "alice@example.com", password := "pw1" } (by decide),
    (C5_duplicate_signup_rejected.2 initState "bob" "bob@example.com" "pw" (by decide)).1⟩

/-- C7: on an absent image id, the detail page, like, unlike and comment
routes all answer the 404 "Image not found" exception and hand back the
state exactly as it was — neither the images nor the users mapping moves. -/
theorem C7_missing_image_404_no_mutation (s : AppState) (imageId : Nat) (c : String)
    (h : dictGet imageId s.images = none) :
    runHandler (image_detail_page imageId) s = (.error ⟨404, "Image not found"⟩, s) ∧
    runHandler (like_image imageId) s = (.error ⟨404, "Image not found"⟩, s) ∧
    runHandler (unlike_image imageId) s = (.error ⟨404, "Image not found"⟩, s) ∧
    runHandler (add_comment imageId c) s = (.error ⟨404, "Image not found"⟩, s) := by
  refine ⟨?_, ?_, ?_, ?_⟩ <;>
    simp [runHandler, image_detail_page, like_image, unlike_image, add_comment, h]

/-- Witness for C7: id 99 is absent from the seeded store. -/
theorem C7_witness :
    runHandler (image_detail_page 99) initState
      = (.error ⟨404, "Image not found"⟩, initState) ∧
    runHandler (like_image 99) initState
      = (.error ⟨404, "Image not found"⟩, initState) ∧
    runHandler (unlike_image 99) initState
      = (.error ⟨404, "Image not found"⟩, initState) ∧
    runHandler (add_comment 99 "hello") initState
      = (.error ⟨404, "Image not found"⟩, initState) :=
  C7_missing_image_404_no_mutation initState 99 "hello" (by decide)

/-! ### Descending sort lemmas -/

theorem insertDesc_perm (x : Nat) (l : List Nat) :
    List.Perm (insertDesc x l) (x :: l) := by
  induction l with
  | nil => simp [insertDesc]
  | cons y ys ih =>
      by_cases h : y ≤ x
      · simp [insertDesc, h]
      · simp only [insertDesc, h, if_false]
        exact (ih.cons y).trans (List.Perm.swap x y ys)

theorem sortDesc_perm (l : List Nat) : List.Perm (sortDesc l) l := by
  induction l with
  | nil => simp [sortDesc]
  | cons x xs ih =>
      have hfold : sortDesc (x :: xs) = insertDesc x (sortDesc xs) := rfl
      rw [hfold]
      exact (insertDesc_perm x (sortDesc xs)).trans (ih.cons x)

theorem mem_insertDesc {x b : Nat} {l : List Nat} (h : b ∈ insertDesc x l) :
    b = x ∨ b ∈ l := by
  have := (insertDesc_perm x l).mem_iff.mp h
  simpa using this

theorem insertDesc_sorted (x : Nat) {l : List Nat}
    (h : l.Pairwise (fun a b => b ≤ a)) :
    (insertDesc x l).Pairwise (fun a b => b ≤ a) := by
  induction l with
  | nil => simp [insertDesc]
  | cons y ys ih =>
      rcases List.pairwise_cons.mp h with ⟨hy, hys⟩
      by_cases hxy : y ≤ x
      · simp only [insertDesc, hxy, if_true]
        refine List.pairwise_cons.mpr ⟨?_, h⟩
        intro b hb
        rcases List.mem_cons.mp hb with hb | hb
        · omega
        · have := hy b hb
          omega
      · simp only [insertDesc, hxy, if_false]
        refine List.pairwise_cons.mpr ⟨?_, ih hys⟩
        intro b hb
        rcases mem_insertDesc hb with hb | hb
        · omega
        · exact hy b hb

theorem sortDesc_sorted (l : List Nat) :
    (sortDesc l).Pairwise (fun a b => b ≤ a) := by
  induction l with
  | nil => simp [sortDesc]
  | cons x xs ih => exact insertDesc_sorted x ih

theorem sortDesc_head_of_max {l : List Nat} {x : Nat} (h : ∀ y ∈ l, y < x) :
    (sortDesc (l ++ [x])).head? = some x := by
  have hperm := sortDesc_perm (l ++ [x])
  have hsorted := sortDesc_sorted (l ++ [x])
  have hx : x ∈ sortDesc (l ++ [x]) := hperm.mem_iff.mpr (by simp)
  cases hl : sortDesc (l ++ [x]) with
  | nil => rw [hl] at hx; simp at hx
  | cons a t =>
      rw [hl] at hx hsorted hperm
      rcases List.pairwise_cons.mp hsorted with ⟨ha, _⟩
      have hamem : a ∈ l ++ [x] := hperm.mem_iff.mp (List.mem_cons_self a t)
      rcases List.mem_append.mp hamem with hal | hax
      · have hax' : a < x := h a hal
        rcases List.mem_cons.mp hx with heq | hmem
        · omega
        · have := ha x hmem
          omega
      · simp only [List.mem_singleton] at hax
        simp [hax]

/-! ### Upload and feed -/

/-- C6: under the store invariant that every stored id is below
`next_image_id` (true at startup and preserved here), an upload assigns
exactly `next_image_id` — strictly greater than every previously assigned
id — bumps the counter so the invariant persists (ids are never reused),
and the new image comes first in the feed's descending-by-id order. -/
theorem C6_upload_id_fresh_and_first (s : AppState) (desc fn : String)
    (fc : List UInt8) (hInv : imageIdsBound s) :
    ∃ s', handle_upload desc fn fc s = .ok (.htmlText 200 "Upload successful", s') ∧
      dictGet s.nextImageId s'.images
        = some { id := s.nextImageId,
                 url := "https://via.placeholder.com/300x200.png?text=New+Post+"
                   ++ toString s.nextImageId,
                 description := desc, likes := 0, comments := [] } ∧
      (∀ p ∈ s.images, p.1 < s.nextImageId) ∧
      s'.nextImageId = s.nextImageId + 1 ∧
      imageIdsBound s' ∧
      (feedImageIds s').head? = some s.nextImageId := by
  have hfresh : ∀ p ∈ s.images, p.1 ≠ s.nextImageId := by
    intro p hp
    have := hInv p hp
    omega
  have hnone : dictGet s.nextImageId s.images = none :=
    dictGet_eq_none_of_keys hfresh
  refine ⟨_, rfl, dictGet_dictSet_self _ _ _, hInv, rfl, ?_, ?_⟩
  · intro p hp
    simp only [handle_upload] at hp
    rcases mem_dictSet hp with hp' | hp'
    · subst hp'
      simp
    · have := hInv p hp'
      simp
      omega
  · show (sortDesc ((dictSet s.nextImageId _ s.images).map Prod.fst)).head?
      = some s.nextImageId
    rw [keys_dictSet_of_none _ hnone]
    refine sortDesc_head_of_max ?_
    intro y hy
    rcases List.mem_map.mp hy with ⟨p, hp, hpy⟩
    have := hInv p hp
    omega

/-- Witness for C6 on the seeded store (`next_image_id = 7`). -/
theorem C6_witness :
    ∃ s', handle_upload "My pic" "pic.png" [] initState
        = .ok (.htmlText 200 "Upload successful", s') ∧
      dictGet 7 s'.images
        = some { id := 7,
                 url := "https://via.placeholder.com/300x200.png?text=New+Post+7",
                 description := "My pic", likes := 0, comments := [] } ∧
      (∀ p ∈ initState.images, p.1 < 7) ∧
      s'.nextImageId = 8 ∧
      imageIdsBound s' ∧
      (feedImageIds s').head? = some 7 :=
  C6_upload_id_fresh_and_first initState "My pic" "pic.png" []
    (by simp only [imageIdsBound, initState, initImages]; decide)

/-- C8: the feed page responds with the shared shell around the header and
a grid holding one thumbnail per stored image, iterated in descending id
order, and hands the store back unchanged. -/
theorem C8_feed_descending_no_mutation (s : AppState) :
    runHandler feed_page s
      = (.ok (render_page
            [ feedHeader,
              .el "div" [("class", "image-grid")] ((feedImageIds s).map (feedThumb s)) ]
            "Feed"), s) ∧
    List.Perm (feedImageIds s) (s.images.map Prod.fst) ∧
    (feedImageIds s).Pairwise (fun a b => b ≤ a) :=
  ⟨rfl, sortDesc_perm _, sortDesc_sorted _⟩

/-! ### Renderer purity and upload initialization -/

/-- C9: every fragment renderer (page shell, feed grid, likes widget,
comments list, detail view, upload form) is deterministic — identical
entity data yields identical markup, and the upload form does not even
depend on the store — and the purely rendering routes return the entity
store untouched. -/
theorem C9_renderers_deterministic_pure :
    (∀ (c₁ c₂ : List Node) (t₁ t₂ : String), c₁ = c₂ → t₁ = t₂ →
        render_page c₁ t₁ = render_page c₂ t₂) ∧
    (∀ (s₁ s₂ : AppState), s₁ = s₂ →
        (feedImageIds s₁).map (feedThumb s₁) = (feedImageIds s₂).map (feedThumb s₂)) ∧
    (∀ (i₁ i₂ : Nat) (l₁ l₂ : Int), i₁ = i₂ → l₁ = l₂ →
        render_like_section i₁ l₁ = render_like_section i₂ l₂) ∧
    (∀ (i₁ i₂ : Nat) (c₁ c₂ : List String), i₁ = i₂ → c₁ = c₂ →
        render_comments_list i₁ c₁ = render_comments_list i₂ c₂) ∧
    (∀ (i₁ i₂ : Nat) (d₁ d₂ : Image), i₁ = i₂ → d₁ = d₂ →
        render_detail i₁ d₁ = render_detail i₂ d₂) ∧
    (∀ s₁ s₂ : AppState,
        (runHandler get_post_form s₁).1 = (runHandler get_post_form s₂).1) ∧
    (∀ (s : AppState) (i : Nat),
        (runHandler feed_page s).2 = s ∧
        (runHandler (image_detail_page i) s).2 = s ∧
        (runHandler signup_page s).2 = s ∧
        (runHandler get_post_form s).2 = s ∧
        (runHandler close_modal s).2 = s) := by
  refine ⟨?_, ?_, ?_, ?_, ?_, ?_, ?_⟩
  · intro c₁ c₂ t₁ t₂ hc ht
    rw [hc, ht]
  · intro s₁ s₂ hs
    rw [hs]
  · intro i₁ i₂ l₁ l₂ hi hl
    rw [hi, hl]
  · intro i₁ i₂ c₁ c₂ hi hc
    rw [hi, hc]
  · intro i₁ i₂ d₁ d₂ hi hd
    rw [hi, hd]
  · intro s₁ s₂
    rfl
  · intro s i
    refine ⟨rfl, ?_, rfl, rfl, rfl⟩
    cases hd : dictGet i s.images <;> simp [runHandler, image_detail_page, hd]

/-- Witness for C9 at concrete inputs. -/
theorem C9_witness :
    render_like_section 3 5 = render_like_section 3 5 ∧
    render_comments_list 1 ["a"] = render_comments_list 1 ["a"] ∧
    (runHandler feed_page initState).2 = initState ∧
    (runHandler (image_detail_page 3) initState).2 = initState :=
  ⟨C9_renderers_deterministic_pure.2.2.1 3 3 5 5 rfl rfl,
    C9_renderers_deterministic_pure.2.2.2.1 1 1 ["a"] ["a"] rfl rfl,
    (C9_renderers_deterministic_pure.2.2.2.2.2.2 initState 3).1,
    (C9_renderers_deterministic_pure.2.2.2.2.2.2 initState 3).2.1⟩

/-- C10: an upload stores, under the key `next_image_id`, an image whose
`id` field equals that key, whose url is the placeholder derived from the
id, whose description is the submitted one, with 0 likes and no comments;
and the response and resulting state are independent of the uploaded
file's name and bytes — the file content is never stored. -/
theorem C10_upload_initialization (s : AppState) (desc fn : String) (fc : List UInt8) :
    dictGet s.nextImageId ((runHandler (handle_upload desc fn fc) s).2).images
      = some { id := s.nextImageId,
               url := "https://via.placeholder.com/300x200.png?text=New+Post+"
                 ++ toString s.nextImageId,
               description := desc, likes := 0, comments := [] } ∧
    (∀ (fn' : String) (fc' : List UInt8),
        handle_upload desc fn fc s = handle_upload desc fn' fc' s) := by
  constructor
  · simp [runHandler, handle_upload, dictGet_dictSet_self]
  · intro fn' fc'
    rfl

end PinterestApp
